import Mathlib

/-!
Verification development for the BoolStreet trading backend.

This file gives a shallow embedding, in Lean 4, of the decision-and-execution
pipeline of the repository: the decision parser and API-call logging of
`layers/execution.py` (`call_llm_api`), the trade executor
(`layers/execution.py`, `execute_trade`), the Hyperliquid exchange adapter
(`layers/brokers/hyperliquid_broker.py`), and the agent scheduler
(`layers/scheduler.py`).

Modelling conventions:
- Python floats are modelled as rationals.  All arithmetic the claims touch
  (clamping, percentage multiplications, half-even rounding to a number of
  decimal digits) is exact on the inputs considered.
- Database writes always succeed; a persisted row is an element appended to a
  result list.  (In the source every database write is wrapped in try/except
  that swallows storage failures; claims concern which rows the code attempts
  to persist.)
- A call into the network (broker method, exchange SDK call) is modelled by a
  function supplied as data; its result is an `Outcome`, either a returned
  value or a raised exception carrying its message.
- Human-readable message strings are reproduced in structure; numeric
  formatting (Python two-decimal formatting) is rendered with plain
  `toString`, since no claim depends on the exact digits of a message.
-/

namespace BoolStreet

/-- Outcome of a call into an external collaborator: a returned value or a
raised exception carrying its message. -/
inductive Outcome (α : Type) where
  | ok : α → Outcome α
  | exn : String → Outcome α
deriving Repr

/-- Structured decision from the model, dataclass `TraderDecision` in
`layers/execution.py`. -/
structure TraderDecision where
  coin : String
  decision : String
  uncertainty : ℚ
  quantity : ℚ
  position_pct : Option ℚ := none
  leverage : Option ℚ := none
  stop_loss_pct : Option ℚ := none
  take_profit_pct : Option ℚ := none
  reasoning : Option String := none
deriving Repr, DecidableEq

/-- Raw fields of the model response dictionary, after JSON decoding, as read
by `call_llm_api` with `.get` defaults.  A `none` field is a missing key. -/
structure RawDecision where
  coin : Option String := none
  decision : Option String := none
  uncertainty : Option ℚ := none
  quantity : Option ℚ := none
  position_pct : Option ℚ := none
  leverage : Option ℚ := none
  stop_loss_pct : Option ℚ := none
  take_profit_pct : Option ℚ := none
  reasoning : Option String := none
deriving Repr, DecidableEq

/-- Python str.upper, modelled on the character list (semantically
String.toUpper, stated this way so that proofs can compute it). -/
def pyUpper (s : String) : String := ⟨s.data.map Char.toUpper⟩

/-- Python str.lower, modelled on the character list. -/
def pyLower (s : String) : String := ⟨s.data.map Char.toLower⟩

/-- Python str.strip, modelled on the character list. -/
def pyStrip (s : String) : String :=
  ⟨((s.data.dropWhile Char.isWhitespace).reverse.dropWhile Char.isWhitespace).reverse⟩

/-- Valid actions checked by `call_llm_api` (execution.py line 371). -/
def validActions : List String := ["long", "short", "hold", "close"]

/-- Parse-and-clamp of the model response, `call_llm_api` lines 342-390:
uppercase coin, lowercase and validate decision (default hold), clamp
uncertainty to the unit interval, take the absolute value of quantity, clamp
each optional numeric field to its range. -/
def parseDecision (raw : RawDecision) : TraderDecision :=
  let coin := pyUpper (raw.coin.getD "")
  let decision0 := pyLower (raw.decision.getD "hold")
  let uncertainty0 := raw.uncertainty.getD (1/2)
  let quantity0 := raw.quantity.getD 0
  let position_pct := raw.position_pct.map (fun p => max 0 (min 1 p))
  let leverage := raw.leverage.map (fun l => max 1 (min 50 l))
  let stop_loss_pct := raw.stop_loss_pct.map (fun s => max (1/1000) (min (1/2) s))
  let take_profit_pct := raw.take_profit_pct.map (fun s => max (1/1000) (min 2 s))
  let reasoning := some (raw.reasoning.getD "")
  let decision := if decision0 ∈ validActions then decision0 else "hold"
  let uncertainty := max 0 (min 1 uncertainty0)
  let quantity := |quantity0|
  { coin := coin, decision := decision, uncertainty := uncertainty,
    quantity := quantity, position_pct := position_pct, leverage := leverage,
    stop_loss_pct := stop_loss_pct, take_profit_pct := take_profit_pct,
    reasoning := reasoning }

/-- Python truthiness of an optional float: None and 0.0 are falsy. -/
def qTruthy : Option ℚ → Bool
  | none => false
  | some x => x != 0

/-- Python `a or b` on optional floats, as in
`user_stop_loss_pct or decision.stop_loss_pct` (execution.py line 706). -/
def pyOrQ (a b : Option ℚ) : Option ℚ := if qTruthy a then a else b

/-- Python truthiness of an optional int: None and 0 are falsy. -/
def natTruthy : Option ℕ → Bool
  | none => false
  | some n => n != 0

/-- Python truthiness of an optional string: None and the empty string are
falsy. -/
def strTruthy : Option String → Bool
  | none => false
  | some s => s != ""

/-- Python `prompt[:10000] if len(prompt) > 10000 else prompt`. -/
def pyTruncate (s : String) (n : ℕ) : String := if n < s.length then s.take n else s

/-! ### Trade executor (`execute_trade`, execution.py lines 491-846) -/

/-- One element of the list returned by `broker.get_positions()`, with the
keys the executor reads (`symbol`, `quantity`) and those a broker also
reports. -/
structure PositionDict where
  symbol : String
  quantity : ℚ
  entry_price : ℚ := 0
  current_price : ℚ := 0
  unrealized_pnl : ℚ := 0
deriving Repr, DecidableEq

/-- Result dictionary of `broker.execute_trade`, with the keys and `.get`
defaults the executor reads.  The `order` key holds the serialized raw order
response when the broker supplies one. -/
structure ExchTradeResult where
  success : Bool
  price : ℚ := 0
  order_id : Option ℕ := none
  order : Option String := none
  error : Option String := none
deriving Repr, DecidableEq

/-- Result dictionary of `broker.place_stop_loss` / `broker.place_take_profit`
as read by the executor. -/
structure TriggerCallResult where
  success : Bool
  order_id : Option ℕ := none
  error : Option String := none
deriving Repr, DecidableEq

/-- Result dictionary of `broker.cancel_trigger_orders` as read by the
executor. -/
structure CancelResult where
  success : Bool := true
  cancelled_count : ℕ := 0
deriving Repr, DecidableEq

/-- A call the executor makes on the broker, recorded in order. -/
inductive BrokerCall where
  | getPositions
  | trade (symbol side : String) (quantity : ℚ)
  | cancelTriggers (symbol : String)
  | stopLoss (symbol : String) (quantity trigger : ℚ) (is_long : Bool)
  | takeProfit (symbol : String) (quantity trigger : ℚ) (is_long : Bool)
deriving Repr, DecidableEq

/-- Behaviour of the broker seen by one `execute_trade` invocation: the value
(or exception) each broker method produces when called with given arguments. -/
structure BrokerBehavior where
  getPositions : Outcome (List PositionDict)
  trade : String → String → ℚ → Outcome ExchTradeResult
  cancelTriggers : String → Outcome CancelResult
  stopLoss : String → ℚ → ℚ → Bool → Outcome TriggerCallResult
  takeProfit : String → ℚ → ℚ → Bool → Outcome TriggerCallResult

/-- The serialized stop-loss / take-profit outcome stored inside the result
dictionary and in the Trade row JSON columns. -/
structure SlTpRecord where
  success : Bool
  trigger_price : Option ℚ := none
  percentage : Option ℚ := none
  order_id : Option ℕ := none
  error : Option String := none
deriving Repr, DecidableEq

/-- A persisted row of the `trades` table (db_models.py, class Trade), with
the columns `execute_trade` fills. -/
structure TradeRow where
  trader_id : ℕ
  user_id : String
  symbol : String
  coin : String
  side : String
  quantity : ℚ
  price : ℚ
  uncertainty : Option ℚ := none
  order_id : Option String := none
  order_response : Option String := none
  stop_loss_order : Option SlTpRecord := none
  take_profit_order : Option SlTpRecord := none
  success : Bool
  error_message : Option String := none
deriving Repr, DecidableEq

/-- The result dictionary returned by `execute_trade`; keys absent on a branch
are `none` / defaulted, which is indistinguishable for every consumer in the
source (all reads use `.get`). -/
structure ExecResult where
  success : Bool
  action : String
  message : Option String := none
  original_decision : Option String := none
  symbol : String
  coin : String
  quantity : ℚ
  uncertainty : Option ℚ := none
  threshold : Option ℚ := none
  price : ℚ
  order : Option String := none
  order_id : Option ℕ := none
  error : Option String := none
  stop_loss : Option SlTpRecord := none
  take_profit : Option SlTpRecord := none
deriving Repr, DecidableEq

/-- The fields of the trader model (`UserModel`) the executor reads. -/
structure TraderModel where
  id : ℕ
  user_id : String
deriving Repr, DecidableEq

/-- Everything one `execute_trade` invocation produces: its returned result
dictionary, the Trade rows it persisted, and the broker calls it made. -/
structure ExecOutcome where
  result : ExecResult
  savedTrades : List TradeRow
  brokerCalls : List BrokerCall
deriving Repr

/-- The skip-reason message (execution.py line 519; Python formats the two
numbers with two decimals, which no claim depends on). -/
def skipReasonMsg (u th : ℚ) : String :=
  "Uncertainty " ++ toString u ++ " exceeds threshold " ++ toString th

/-- Python `str(result.get("order_id")) if result.get("order_id") else None`:
an order id of 0 is falsy and stored as NULL. -/
def pyOrderIdStr : Option ℕ → Option String
  | none => none
  | some n => if n = 0 then none else some (toString n)

/-- Shallow embedding of `execute_trade` (execution.py lines 491-846), with
`save_trade` as in the source.  Branches in source order: uncertainty gate,
hold, close (with its inner try/except), then long/short with protective
orders, the whole wrapped in the outer try/except. -/
def executeTrade (broker : BrokerBehavior) (decision : TraderDecision)
    (trader : TraderModel) (save_trade : Bool) (uncertainty_threshold : ℚ)
    (user_stop_loss_pct user_take_profit_pct : Option ℚ) : ExecOutcome :=
  let symbol := decision.coin
  if uncertainty_threshold < decision.uncertainty ∧ decision.decision ∉ ["hold"] then
    -- skip-due-to-uncertainty branch (lines 518-556)
    let skip_reason := skipReasonMsg decision.uncertainty uncertainty_threshold
    let result : ExecResult :=
      { success := true, action := "skipped",
        message := some ("Trade skipped: " ++ skip_reason),
        original_decision := some decision.decision,
        symbol := symbol, coin := decision.coin,
        quantity := decision.quantity,
        uncertainty := some decision.uncertainty,
        threshold := some uncertainty_threshold, price := 0 }
    let trades : List TradeRow :=
      if save_trade then
        [{ trader_id := trader.id, user_id := trader.user_id,
           symbol := symbol ++ "USDT", coin := decision.coin, side := "skipped",
           quantity := decision.quantity, price := 0,
           uncertainty := some decision.uncertainty, success := true,
           error_message := some skip_reason }]
      else []
    ⟨result, trades, []⟩
  else if decision.decision = "hold" then
    -- hold branch (lines 558-589)
    let result : ExecResult :=
      { success := true, action := "hold",
        message := some "No trade executed (hold decision)",
        symbol := symbol, coin := decision.coin, quantity := 0, price := 0 }
    let trades : List TradeRow :=
      if save_trade then
        [{ trader_id := trader.id, user_id := trader.user_id,
           symbol := symbol ++ "USDT", coin := decision.coin, side := "hold",
           quantity := 0, price := 0, uncertainty := some decision.uncertainty,
           success := true }]
      else []
    ⟨result, trades, []⟩
  else if decision.decision = "close" then
    -- close branch (lines 592-676), with its own try/except
    match broker.getPositions with
    | .exn e =>
        ⟨{ success := false, action := "close", error := some e,
           symbol := symbol ++ "USDT", coin := decision.coin,
           quantity := 0, price := 0 }, [], [.getPositions]⟩
    | .ok positions =>
      match positions.find? (fun pos => pyUpper pos.symbol == pyUpper symbol) with
      | none =>
          -- no open position: early return, no Trade row is saved
          ⟨{ success := true, action := "close",
             message := some ("No open position for " ++ symbol ++ " to close"),
             symbol := symbol, coin := decision.coin,
             quantity := 0, price := 0 }, [], [.getPositions]⟩
      | some position_to_close =>
        let close_quantity := position_to_close.quantity
        let close_side := if 0 < close_quantity then "short" else "long"
        match broker.trade symbol close_side |close_quantity| with
        | .exn e =>
            -- inner except: failure result, no Trade row is saved
            ⟨{ success := false, action := "close", error := some e,
               symbol := symbol ++ "USDT", coin := decision.coin,
               quantity := 0, price := 0 },
             [], [.getPositions, .trade symbol close_side |close_quantity|]⟩
        | .ok tr =>
          let result : ExecResult :=
            { success := tr.success, action := "close", order := tr.order,
              symbol := symbol ++ "USDT", coin := decision.coin,
              quantity := |close_quantity|, price := tr.price,
              order_id := tr.order_id,
              error := if tr.success then none
                       else some (tr.error.getD "Unknown error") }
          let trades : List TradeRow :=
            if save_trade then
              [{ trader_id := trader.id, user_id := trader.user_id,
                 symbol := symbol ++ "USDT", coin := decision.coin,
                 side := "close", quantity := |close_quantity|,
                 price := result.price, uncertainty := some decision.uncertainty,
                 order_id := pyOrderIdStr result.order_id,
                 order_response := tr.order,
                 stop_loss_order := none, take_profit_order := none,
                 success := result.success, error_message := result.error }]
            else []
          ⟨result, trades, [.getPositions, .trade symbol close_side |close_quantity|]⟩
  else
    -- long/short branch (lines 678-810) plus the outer except (lines 811-846)
    match broker.trade symbol decision.decision decision.quantity with
    | .exn e =>
      let result : ExecResult :=
        { success := false, action := decision.decision, error := some e,
          symbol := symbol ++ "USDT", coin := decision.coin,
          quantity := decision.quantity, price := 0 }
      let trades : List TradeRow :=
        if save_trade then
          [{ trader_id := trader.id, user_id := trader.user_id,
             symbol := symbol ++ "USDT", coin := decision.coin,
             side := decision.decision, quantity := decision.quantity,
             price := 0, uncertainty := some decision.uncertainty,
             success := false, error_message := some e }]
        else []
      ⟨result, trades, [.trade symbol decision.decision decision.quantity]⟩
    | .ok tr =>
      let result0 : ExecResult :=
        { success := tr.success, action := decision.decision, order := tr.order,
          symbol := symbol ++ "USDT", coin := decision.coin,
          quantity := decision.quantity, price := tr.price,
          order_id := tr.order_id,
          error := if tr.success then none
                   else some (tr.error.getD "Unknown error") }
      if tr.success ∧ 0 < tr.price then
        let entry_price := tr.price
        let is_long := decision.decision == "long"
        let effective_stop_loss_pct := pyOrQ user_stop_loss_pct decision.stop_loss_pct
        let effective_take_profit_pct := pyOrQ user_take_profit_pct decision.take_profit_pct
        let cancelCalls : List BrokerCall :=
          if qTruthy effective_stop_loss_pct || qTruthy effective_take_profit_pct then
            [.cancelTriggers symbol]
          else []
        let sl_branch : Option SlTpRecord × List BrokerCall :=
          match effective_stop_loss_pct with
          | some slp =>
            if 0 < slp then
              let sl_trigger_price :=
                if is_long then entry_price * (1 - slp) else entry_price * (1 + slp)
              match broker.stopLoss symbol decision.quantity sl_trigger_price is_long with
              | .ok sr =>
                (some { success := sr.success, trigger_price := some sl_trigger_price,
                        percentage := some slp, order_id := sr.order_id,
                        error := sr.error },
                 [.stopLoss symbol decision.quantity sl_trigger_price is_long])
              | .exn e =>
                (some { success := false, error := some e },
                 [.stopLoss symbol decision.quantity sl_trigger_price is_long])
            else (none, [])
          | none => (none, [])
        let tp_branch : Option SlTpRecord × List BrokerCall :=
          match effective_take_profit_pct with
          | some tpp =>
            if 0 < tpp then
              let tp_trigger_price :=
                if is_long then entry_price * (1 + tpp) else entry_price * (1 - tpp)
              match broker.takeProfit symbol decision.quantity tp_trigger_price is_long with
              | .ok pr =>
                (some { success := pr.success, trigger_price := some tp_trigger_price,
                        percentage := some tpp, order_id := pr.order_id,
                        error := pr.error },
                 [.takeProfit symbol decision.quantity tp_trigger_price is_long])
              | .exn e =>
                (some { success := false, error := some e },
                 [.takeProfit symbol decision.quantity tp_trigger_price is_long])
            else (none, [])
          | none => (none, [])
        let result := { result0 with stop_loss := sl_branch.1, take_profit := tp_branch.1 }
        let trades : List TradeRow :=
          if save_trade then
            [{ trader_id := trader.id, user_id := trader.user_id,
               symbol := symbol ++ "USDT", coin := decision.coin,
               side := decision.decision, quantity := decision.quantity,
               price := result.price, uncertainty := some decision.uncertainty,
               order_id := pyOrderIdStr result.order_id,
               order_response := tr.order,
               stop_loss_order := result.stop_loss,
               take_profit_order := result.take_profit,
               success := result.success, error_message := result.error }]
          else []
        ⟨result, trades,
         [.trade symbol decision.decision decision.quantity] ++ cancelCalls
           ++ sl_branch.2 ++ tp_branch.2⟩
      else
        let trades : List TradeRow :=
          if save_trade then
            [{ trader_id := trader.id, user_id := trader.user_id,
               symbol := symbol ++ "USDT", coin := decision.coin,
               side := decision.decision, quantity := decision.quantity,
               price := result0.price, uncertainty := some decision.uncertainty,
               order_id := pyOrderIdStr result0.order_id,
               order_response := tr.order,
               success := result0.success, error_message := result0.error }]
          else []
        ⟨result0, trades, [.trade symbol decision.decision decision.quantity]⟩

/-! ### Hyperliquid exchange adapter (`layers/brokers/hyperliquid_broker.py`) -/

/-- Round-half-to-even to an integer, the semantics of Python's builtin
`round` on the exact value. -/
def roundHalfEven (x : ℚ) : ℤ :=
  let n := ⌊x⌋
  let f := x - (n : ℚ)
  if f < 1/2 then n
  else if 1/2 < f then n + 1
  else if n % 2 = 0 then n else n + 1

/-- Python `round(x, ndigits)` on the exact value: half-to-even at `ndigits`
decimal digits. -/
def pyRound (x : ℚ) (ndigits : ℕ) : ℚ :=
  (roundHalfEven (x * (10 : ℚ) ^ ndigits) : ℚ) / (10 : ℚ) ^ ndigits

/-- Per-coin size-decimal table of `HyperliquidBroker._get_size_decimals`,
default 2. -/
def hlSizeDecimals (coin : String) : ℕ :=
  (([("BTC", 5), ("ETH", 4), ("SOL", 2), ("DOGE", 0), ("XRP", 0), ("ARB", 1),
     ("AVAX", 2), ("LINK", 1), ("MATIC", 1), ("BNB", 3), ("OP", 1), ("SUI", 1)]
      : List (String × ℕ)).find? (fun p => p.1 == pyUpper coin)).elim 2 (·.2)

/-- Per-coin minimum-size table of `HyperliquidBroker._get_min_size`,
default 0.01. -/
def hlMinSize (coin : String) : ℚ :=
  (([("BTC", 1/100000), ("ETH", 1/10000), ("SOL", 1/100), ("DOGE", 1),
     ("XRP", 1), ("ARB", 1/10), ("AVAX", 1/100), ("LINK", 1/10),
     ("MATIC", 1/10), ("BNB", 1/1000), ("OP", 1/10), ("SUI", 1/10)]
      : List (String × ℚ)).find? (fun p => p.1 == pyUpper coin)).elim (1/100) (·.2)

/-- Quantity normalization of `HyperliquidBroker.execute_trade` lines 256-265:
round to the size decimals, then raise to the minimum size when below it. -/
def hlNormalizeQuantity (coin : String) (quantity : ℚ) : ℚ :=
  let q := pyRound quantity (hlSizeDecimals coin)
  if q < hlMinSize coin then hlMinSize coin else q

/-- Status element of a Hyperliquid SDK order response (the shapes the adapter
distinguishes when parsing `statuses[0]`). -/
inductive HlStatus where
  | filled (oid : ℕ)
  | resting (oid : ℕ)
  | err (msg : String)
  | other
deriving Repr, DecidableEq

/-- A Hyperliquid SDK order response as the adapter parses it: status ok with
its statuses list, or a non-ok response from which an error message may be
extracted (none stands for no extractable message, read as the unknown-error
default). -/
inductive HlSdkResponse where
  | ok (statuses : List HlStatus)
  | notOk (errmsg : Option String)
deriving Repr, DecidableEq

/-- The order request `execute_trade` passes to `exchange.market_open`. -/
structure HlOrderRequest where
  name : String
  is_buy : Bool
  sz : ℚ
  px : ℚ
  slippage : ℚ
deriving Repr, DecidableEq

/-- The trigger-order request `place_stop_loss` / `place_take_profit` pass to
`exchange.order`. -/
structure HlTriggerRequest where
  name : String
  is_buy : Bool
  sz : ℚ
  limit_px : ℚ
  triggerPx : ℚ
  isMarket : Bool
  tpsl : String
  reduce_only : Bool
deriving Repr, DecidableEq

/-- Result dictionary of `HyperliquidBroker.execute_trade`. -/
structure HlTradeResult where
  success : Bool
  action : String
  order_id : Option ℕ := none
  price : ℚ
  quantity : ℚ
  error : Option String := none
deriving Repr, DecidableEq

/-- Result dictionary of `place_stop_loss` / `place_take_profit`. -/
structure HlTriggerResult where
  success : Bool
  order_id : Option ℕ := none
  trigger_price : ℚ
  error : Option String := none
deriving Repr, DecidableEq

/-- Environment a Hyperliquid adapter call runs against: current mid prices,
the price rounding (which consults live exchange metadata in
`_round_price`), and the SDK call outcomes. -/
structure HlEnv where
  curPrice : String → ℚ
  roundPrice : String → ℚ → ℚ
  marketOpen : HlOrderRequest → Outcome HlSdkResponse
  placeOrder : HlTriggerRequest → Outcome HlSdkResponse

/-- Response parsing of `HyperliquidBroker.execute_trade` lines 300-366:
status ok with a leading error fails with it, a filled or resting head yields
its order id, otherwise the generic error block applies. -/
def hlParseOrderResult (side : String) (px q : ℚ) : Outcome HlSdkResponse → HlTradeResult
  | .ok (.ok (.err m :: _)) =>
      { success := false, action := side, price := px, quantity := q, error := some m }
  | .ok (.ok (.filled oid :: _)) =>
      { success := true, action := side, order_id := some oid, price := px, quantity := q }
  | .ok (.ok (.resting oid :: _)) =>
      { success := true, action := side, order_id := some oid, price := px, quantity := q }
  | .ok (.ok (.other :: _)) =>
      { success := true, action := side, price := px, quantity := q }
  | .ok (.ok []) =>
      { success := false, action := side, price := px, quantity := q,
        error := some "Unknown error" }
  | .ok (.notOk m) =>
      { success := false, action := side, price := px, quantity := q,
        error := some (m.getD "Unknown error") }
  | .exn e =>
      { success := false, action := side, price := 0, quantity := q, error := some e }

/-- Shallow embedding of `HyperliquidBroker.execute_trade` (lines 224-366).
Returns the result dictionary and the order request submitted to the SDK, if
any. -/
def hlExecuteTrade (env : HlEnv) (symbol side : String) (quantity : ℚ)
    (price? : Option ℚ) : HlTradeResult × Option HlOrderRequest :=
  if side = "hold" then
    ({ success := true, action := "hold", price := 0, quantity := 0 }, none)
  else
    let coin := pyUpper symbol
    let is_long := pyLower side == "long"
    let q := hlNormalizeQuantity coin quantity
    match price? with
    | none =>
      let current_price := env.curPrice coin
      if current_price ≤ 0 then
        ({ success := false, action := side, price := 0, quantity := q,
           error := some ("Could not get current price for " ++ coin) }, none)
      else
        let price := env.roundPrice coin
          (if is_long then current_price * (1 + 1/500) else current_price * (1 - 1/500))
        let req : HlOrderRequest :=
          { name := coin, is_buy := is_long, sz := q, px := price, slippage := 1/100 }
        (hlParseOrderResult side price q (env.marketOpen req), some req)
    | some p =>
      let price := env.roundPrice coin p
      let req : HlOrderRequest :=
        { name := coin, is_buy := is_long, sz := q, px := price, slippage := 1/100 }
      (hlParseOrderResult side price q (env.marketOpen req), some req)

/-- Raw entry of the clearinghouse `assetPositions` response consumed by
`HyperliquidBroker.get_positions`: signed size `szi` and entry price. -/
structure HlAssetPosition where
  coin : String
  szi : ℚ
  entryPx : ℚ
deriving Repr, DecidableEq

/-- Shallow embedding of `HyperliquidBroker.get_positions` (lines 369-402):
only non-zero positions, with `quantity` the ABSOLUTE size (the sign is
discarded). -/
def hlGetPositions (aps : List HlAssetPosition) (curPrice : String → ℚ) :
    List PositionDict :=
  (aps.filter (fun p => p.szi != 0)).map (fun p =>
    { symbol := p.coin, quantity := |p.szi|, entry_price := p.entryPx,
      current_price := curPrice p.coin,
      unrealized_pnl :=
        if (0 : ℚ) < p.szi then (curPrice p.coin - p.entryPx) * p.szi
        else (p.entryPx - curPrice p.coin) * |p.szi| })

/-- Trigger-order response parsing shared by `place_stop_loss` (lines 616-650)
and `place_take_profit` (lines 757-791): only a resting head yields an order
id; a leading error or a non-ok response fails. -/
def hlParseTriggerResult (tpx : ℚ) (unknownMsg : String) :
    Outcome HlSdkResponse → HlTriggerResult
  | .ok (.ok (.err m :: _)) =>
      { success := false, trigger_price := tpx, error := some m }
  | .ok (.ok (.resting oid :: _)) =>
      { success := true, order_id := some oid, trigger_price := tpx }
  | .ok (.ok (.filled _ :: _)) =>
      { success := true, trigger_price := tpx }
  | .ok (.ok (.other :: _)) =>
      { success := true, trigger_price := tpx }
  | .ok (.ok []) =>
      { success := false, trigger_price := tpx, error := some unknownMsg }
  | .ok (.notOk _) =>
      { success := false, trigger_price := tpx, error := some unknownMsg }
  | .exn e =>
      { success := false, trigger_price := tpx, error := some e }

/-- Shallow embedding of `HyperliquidBroker.place_stop_loss` (lines 520-660).
Returns the result dictionary and the trigger order submitted, if any. -/
def hlPlaceStopLoss (env : HlEnv) (symbol : String) (quantity trigger_price : ℚ)
    (is_long : Bool) : HlTriggerResult × Option HlTriggerRequest :=
  let coin := pyUpper symbol
  let is_buy := !is_long
  let q := pyRound quantity (hlSizeDecimals coin)
  let t1 := env.roundPrice coin trigger_price
  let current_price := env.curPrice coin
  if current_price ≤ 0 then
    ({ success := false, trigger_price := t1,
       error := some ("Could not get current price for " ++ coin) }, none)
  else if t1 ≤ 0 then
    ({ success := false, trigger_price := 0,
       error := some "Invalid trigger price" }, none)
  else
    let t2 :=
      if is_long ∧ current_price ≤ t1 then
        env.roundPrice coin (current_price * (995/1000))
      else if (¬ is_long) ∧ t1 ≤ current_price then
        env.roundPrice coin (current_price * (1005/1000))
      else t1
    let limit_px := env.roundPrice coin
      (if is_long then t2 * (1 - 3/100) else t2 * (1 + 3/100))
    let req : HlTriggerRequest :=
      { name := coin, is_buy := is_buy, sz := q, limit_px := limit_px,
        triggerPx := t2, isMarket := true, tpsl := "sl", reduce_only := true }
    (hlParseTriggerResult t2 "Unknown error placing stop loss" (env.placeOrder req),
     some req)

/-- Shallow embedding of `HyperliquidBroker.place_take_profit`
(lines 662-801), the mirror of the stop-loss rule with 1 percent limit
slippage. -/
def hlPlaceTakeProfit (env : HlEnv) (symbol : String) (quantity trigger_price : ℚ)
    (is_long : Bool) : HlTriggerResult × Option HlTriggerRequest :=
  let coin := pyUpper symbol
  let is_buy := !is_long
  let q := pyRound quantity (hlSizeDecimals coin)
  let t1 := env.roundPrice coin trigger_price
  let current_price := env.curPrice coin
  if current_price ≤ 0 then
    ({ success := false, trigger_price := t1,
       error := some ("Could not get current price for " ++ coin) }, none)
  else if t1 ≤ 0 then
    ({ success := false, trigger_price := 0,
       error := some "Invalid trigger price" }, none)
  else
    let t2 :=
      if is_long ∧ t1 ≤ current_price then
        env.roundPrice coin (current_price * (1005/1000))
      else if (¬ is_long) ∧ current_price ≤ t1 then
        env.roundPrice coin (current_price * (995/1000))
      else t1
    let limit_px := env.roundPrice coin
      (if is_long then t2 * (1 - 1/100) else t2 * (1 + 1/100))
    let req : HlTriggerRequest :=
      { name := coin, is_buy := is_buy, sz := q, limit_px := limit_px,
        triggerPx := t2, isMarket := true, tpsl := "tp", reduce_only := true }
    (hlParseTriggerResult t2 "Unknown error placing take profit" (env.placeOrder req),
     some req)

/-! ### Agent scheduler (`layers/scheduler.py`) -/

/-- An APScheduler interval configuration as used in `FREQUENCY_CONFIG`. -/
structure IntervalConfig where
  minutes : Option ℕ := none
  hours : Option ℕ := none
  days : Option ℕ := none
deriving Repr, DecidableEq

/-- The frequency table `FREQUENCY_CONFIG` of scheduler.py. -/
def frequencyConfig : List (String × IntervalConfig) :=
  [("1min", { minutes := some 1 }), ("5min", { minutes := some 5 }),
   ("15min", { minutes := some 15 }), ("1hour", { hours := some 1 }),
   ("4hour", { hours := some 4 }), ("1day", { days := some 1 })]

/-- `TradingScheduler.parse_frequency`: lowercase, strip, table lookup. -/
def parseFrequency (frequency : String) : Option IntervalConfig :=
  (frequencyConfig.find? (fun p => p.1 == pyStrip (pyLower frequency))).map (·.2)

/-- A job held by the APScheduler instance, with the configuration
`add_trader` sets. -/
structure SchedJob where
  id : String
  name : String
  args_trader_id : ℕ
  trigger : IntervalConfig
  max_instances : ℕ
  coalesce : Bool
deriving Repr, DecidableEq

/-- The scheduler job store. -/
abbrev SchedState := List SchedJob

/-- `TradingScheduler.get_job_id`. -/
def getJobId (trader_id : ℕ) : String := "trader_" ++ toString trader_id

/-- The APScheduler `get_job` lookup. -/
def getJob (s : SchedState) (job_id : String) : Option SchedJob :=
  s.find? (fun j => j.id == job_id)

/-- `TradingScheduler.remove_trader` (lines 118-137): remove the job when
present; returns True whether or not a job existed. -/
def removeTrader (s : SchedState) (trader_id : ℕ) : SchedState × Bool :=
  let job_id := getJobId trader_id
  match getJob s job_id with
  | some _ => (s.filter (fun j => j.id != job_id), true)
  | none => (s, true)

/-- `TradingScheduler.add_trader` (lines 79-116): remove any existing job
first, then fail on an unsupported frequency, else add the job with
max_instances 1 and coalesce True. -/
def addTrader (s : SchedState) (trader_id : ℕ) (trading_frequency : String) :
    SchedState × Bool :=
  let s1 := (removeTrader s trader_id).1
  match parseFrequency trading_frequency with
  | none => (s1, false)
  | some cfg =>
      (s1 ++ [{ id := getJobId trader_id,
                name := "Trader " ++ toString trader_id ++ " (" ++ trading_frequency ++ ")",
                args_trader_id := trader_id, trigger := cfg,
                max_instances := 1, coalesce := true }], true)

/-! ### Decision-engine model call (`call_llm_api`, execution.py 236-488) -/

/-- Terminal outcome of one model call: an exception in transport or field
conversion, a JSON decode failure of the response body, or a decoded response
dictionary with its raw text and token usage. -/
inductive LlmOutcome where
  | transportError (msg : String)
  | jsonError (msg : String)
  | response (content : String) (raw : RawDecision) (tokens_used : Option ℕ)

/-- A persisted row of the `api_call_logs` table (db_models.py,
class APICallLog), with the columns `call_llm_api` fills. -/
structure ApiLogRow where
  trader_id : ℕ
  user_id : String
  model_name : String
  prompt : String
  prompt_length : ℕ
  response : String
  decision_coin : Option String := none
  decision_action : Option String := none
  decision_uncertainty : Option ℚ := none
  decision_quantity : Option ℚ := none
  tokens_used : Option ℕ := none
  latency_ms : Option ℕ := none
  success : Bool
  error_message : Option String := none
deriving Repr, DecidableEq

/-- Shallow embedding of `call_llm_api` (execution.py lines 236-488): returns
the decision or the raised exception message, together with the APICallLog
rows written.  Logging happens only under
`if save_log and trader_id and user_id` (Python truthiness). -/
def callLlmApi (outcome : LlmOutcome) (prompt model : String)
    (trader_id : Option ℕ) (user_id : Option String) (save_log : Bool)
    (latency_ms : ℕ) : Except String TraderDecision × List ApiLogRow :=
  let shouldLog := save_log && natTruthy trader_id && strTruthy user_id
  match outcome with
  | .response content raw tokens =>
    let d := parseDecision raw
    let logs : List ApiLogRow :=
      if shouldLog then
        [{ trader_id := trader_id.getD 0, user_id := user_id.getD "",
           model_name := model, prompt := prompt, prompt_length := prompt.length,
           response := content, decision_coin := some d.coin,
           decision_action := some d.decision,
           decision_uncertainty := some d.uncertainty,
           decision_quantity := some d.quantity, tokens_used := tokens,
           latency_ms := some latency_ms, success := true }]
      else []
    (.ok d, logs)
  | .jsonError m =>
    let error_msg := "Invalid LLM response format: " ++ m
    let logs : List ApiLogRow :=
      if shouldLog then
        [{ trader_id := trader_id.getD 0, user_id := user_id.getD "",
           model_name := model, prompt := pyTruncate prompt 10000,
           prompt_length := prompt.length, response := "", success := false,
           error_message := some error_msg, latency_ms := some latency_ms }]
      else []
    (.error error_msg, logs)
  | .transportError m =>
    let logs : List ApiLogRow :=
      if shouldLog then
        [{ trader_id := trader_id.getD 0, user_id := user_id.getD "",
           model_name := model, prompt := pyTruncate prompt 10000,
           prompt_length := prompt.length, response := "", success := false,
           error_message := some m, latency_ms := some latency_ms }]
      else []
    (.error m, logs)

/-- Modelled from the claim wording, for comparison only: rounding a quantity
DOWN to the allowed size granularity of d decimal digits. -/
def specFloorToGranularity (x : ℚ) (d : ℕ) : ℚ :=
  (⌊x * (10 : ℚ) ^ d⌋ : ℚ) / (10 : ℚ) ^ d

/-- Characterizes the executor paths that return WITHOUT persisting a Trade
row: a close decision passing the uncertainty gate that either finds no open
position for the coin or hits an exception in a broker call of the close
branch (its inner try/except returns before the save). -/
def closeUnsaved (b : BrokerBehavior) (d : TraderDecision) (th : ℚ) : Bool :=
  d.decision == "close" && !(decide (th < d.uncertainty)) &&
  (match b.getPositions with
   | .exn _ => true
   | .ok positions =>
     match positions.find? (fun pos => pyUpper pos.symbol == pyUpper d.coin) with
     | none => true
     | some p =>
       match b.trade d.coin (if 0 < p.quantity then "short" else "long") |p.quantity| with
       | .exn _ => true
       | .ok _ => false)

/-! ## Theorems -/

/-- C6: every parsed model response has an uppercased coin; a lowercased
action that lies in the valid set and defaults to hold when unrecognized;
uncertainty clamped to the unit interval (1.7 becomes exactly 1, -0.3 becomes
exactly 0); quantity replaced by its absolute value; and each present
optional numeric field clamped to its domain (position_pct to the unit
interval, leverage to 1..50, stop_loss_pct to 0.001..0.5, take_profit_pct to
0.001..2). -/
theorem c6_parse_validates_and_clamps (raw : RawDecision) :
    (parseDecision raw).coin = pyUpper (raw.coin.getD "")
    ∧ (parseDecision raw).decision ∈ validActions
    ∧ (∀ s, raw.decision = some s → pyLower s ∈ validActions →
        (parseDecision raw).decision = pyLower s)
    ∧ (∀ s, raw.decision = some s → pyLower s ∉ validActions →
        (parseDecision raw).decision = "hold")
    ∧ 0 ≤ (parseDecision raw).uncertainty
    ∧ (parseDecision raw).uncertainty ≤ 1
    ∧ (raw.uncertainty = some (17/10) → (parseDecision raw).uncertainty = 1)
    ∧ (raw.uncertainty = some (-(3/10)) → (parseDecision raw).uncertainty = 0)
    ∧ (parseDecision raw).quantity = |raw.quantity.getD 0|
    ∧ (∀ p, (parseDecision raw).position_pct = some p → 0 ≤ p ∧ p ≤ 1)
    ∧ (parseDecision raw).position_pct.isSome = raw.position_pct.isSome
    ∧ (∀ l, (parseDecision raw).leverage = some l → 1 ≤ l ∧ l ≤ 50)
    ∧ (parseDecision raw).leverage.isSome = raw.leverage.isSome
    ∧ (∀ s, (parseDecision raw).stop_loss_pct = some s → 1/1000 ≤ s ∧ s ≤ 1/2)
    ∧ (parseDecision raw).stop_loss_pct.isSome = raw.stop_loss_pct.isSome
    ∧ (∀ s, (parseDecision raw).take_profit_pct = some s → 1/1000 ≤ s ∧ s ≤ 2)
    ∧ (parseDecision raw).take_profit_pct.isSome = raw.take_profit_pct.isSome := by
  unfold parseDecision
  refine ⟨rfl, ?_, ?_, ?_, le_max_left _ _, max_le (by norm_num) (min_le_left _ _),
    ?_, ?_, rfl, ?_, by simp, ?_, by simp, ?_, by simp, ?_, by simp⟩
  · dsimp only
    split_ifs with h
    · exact h
    · decide
  · intro s hs hmem
    simp only [hs, Option.getD_some]
    exact if_pos hmem
  · intro s hs hmem
    simp only [hs, Option.getD_some]
    exact if_neg hmem
  · intro h
    simp only [h, Option.getD_some]
    norm_num
  · intro h
    simp only [h, Option.getD_some]
    norm_num
  · intro p hp
    simp only [Option.map_eq_some'] at hp
    obtain ⟨q, _, hq⟩ := hp
    exact hq ▸ ⟨le_max_left _ _, max_le (by norm_num) (min_le_left _ _)⟩
  · intro l hl
    simp only [Option.map_eq_some'] at hl
    obtain ⟨q, _, hq⟩ := hl
    exact hq ▸ ⟨le_max_left _ _, max_le (by norm_num) (min_le_left _ _)⟩
  · intro s hs
    simp only [Option.map_eq_some'] at hs
    obtain ⟨q, _, hq⟩ := hs
    exact hq ▸ ⟨le_max_left _ _, max_le (by norm_num) (min_le_left _ _)⟩
  · intro s hs
    simp only [Option.map_eq_some'] at hs
    obtain ⟨q, _, hq⟩ := hs
    exact hq ▸ ⟨le_max_left _ _, max_le (by norm_num) (min_le_left _ _)⟩

/-- Witness for C6 at a concrete response: decision LONG is lowercased and
kept, uncertainty 1.7 is stored as exactly 1. -/
theorem c6_parse_validates_and_clamps_witness :
    (parseDecision { decision := some "LONG", uncertainty := some (17/10) }).decision = "long"
    ∧ (parseDecision { decision := some "LONG", uncertainty := some (17/10) }).uncertainty = 1 := by
  have h := c6_parse_validates_and_clamps
    { decision := some "LONG", uncertainty := some (17/10) }
  obtain ⟨-, -, h3, -, -, -, h7, -⟩ := h
  exact ⟨h3 "LONG" rfl (by decide), h7 rfl⟩

/-- C10: the effective stop-loss / take-profit percentage in the trade
executor is chosen by Python truthiness, not presence: a truthy (non-None,
non-zero) agent-level value wins, while agent-level values None and 0.0 both
fall back to the model suggestion, so two executor runs differing only in
user percentage 0.0 versus None are identical. -/
theorem c10_effective_pct_truthiness (u : ℚ) (llm : Option ℚ) :
    (u ≠ 0 → pyOrQ (some u) llm = some u)
    ∧ pyOrQ (some 0) llm = llm
    ∧ pyOrQ none llm = llm
    ∧ (∀ b d t s th utp, executeTrade b d t s th (some 0) utp
        = executeTrade b d t s th none utp)
    ∧ (∀ b d t s th usl, executeTrade b d t s th usl (some 0)
        = executeTrade b d t s th usl none) := by
  have hfun : pyOrQ (some 0) = pyOrQ none := funext fun l => by
    simp [pyOrQ, qTruthy]
  refine ⟨fun hu => ?_, by simp [pyOrQ, qTruthy], by simp [pyOrQ, qTruthy], ?_, ?_⟩
  · simp [pyOrQ, qTruthy, hu]
  · intro b d t s th utp
    simp only [executeTrade, hfun]
  · intro b d t s th usl
    simp only [executeTrade, hfun]

/-- Witness for C10 at concrete values: 0.05 as user setting wins, 0.0 falls
back to the model suggestion 0.1. -/
theorem c10_effective_pct_truthiness_witness :
    pyOrQ (some (1/20 : ℚ)) (some (1/10)) = some (1/20)
    ∧ pyOrQ (some (0 : ℚ)) (some (1/10)) = some (1/10) :=
  ⟨(c10_effective_pct_truthiness (1/20) (some (1/10))).1 (by norm_num),
   (c10_effective_pct_truthiness (1/20) (some (1/10))).2.1⟩

/-- After `remove_trader` ran, no job with the trader's job id remains. -/
theorem removeTrader_filter_nil (s : SchedState) (tid : ℕ) :
    (removeTrader s tid).1.filter (fun j => j.id == getJobId tid) = [] := by
  cases h : getJob s (getJobId tid) with
  | some j =>
    simp only [removeTrader, h, List.filter_filter]
    refine List.filter_eq_nil_iff.mpr fun a _ => ?_
    by_cases hid : a.id = getJobId tid <;> simp [hid]
  | none =>
    simp only [removeTrader, h]
    unfold getJob at h
    rw [List.find?_eq_none] at h
    exact List.filter_eq_nil_iff.mpr fun a ha => by simpa using h a ha

/-- C9 counterexample: a scheduler holding the job for agent 1 loses it when
`add_trader` is called again for agent 1 with an unsupported frequency tag
(the existing job is removed first, then the add fails), leaving zero jobs
for that id rather than exactly one. -/
theorem c9_add_trader_can_drop_job :
    ((addTrader (addTrader [] 1 "1hour").1 1 "2min").1.filter
        (fun j => j.id == getJobId 1)).length ≠ 1 := by decide

/-- C9 amended: for a SUPPORTED frequency, `add_trader` replaces any existing
job so that exactly one job for the agent id remains, configured with
max_instances 1 and coalesce true; for an unsupported frequency it removes
the existing job and returns false, leaving zero jobs for the id; and
`remove_trader` for an id with no job returns success leaving the store
unchanged. -/
theorem c9_scheduler_idempotent (s : SchedState) (tid : ℕ) (freq : String) :
    (∀ cfg, parseFrequency freq = some cfg →
      ((addTrader s tid freq).1.filter (fun j => j.id == getJobId tid)).length = 1
      ∧ (addTrader s tid freq).2 = true
      ∧ ∀ j ∈ (addTrader s tid freq).1.filter (fun j => j.id == getJobId tid),
          j.max_instances = 1 ∧ j.coalesce = true ∧ j.trigger = cfg)
    ∧ (parseFrequency freq = none →
      ((addTrader s tid freq).1.filter (fun j => j.id == getJobId tid)).length = 0
      ∧ (addTrader s tid freq).2 = false)
    ∧ (getJob s (getJobId tid) = none → removeTrader s tid = (s, true)) := by
  refine ⟨?_, ?_, ?_⟩
  · intro cfg hcfg
    simp only [addTrader, hcfg, List.filter_append, removeTrader_filter_nil,
      List.nil_append]
    refine ⟨by simp, by simp, ?_⟩
    intro j hj
    rw [List.mem_filter] at hj
    rw [List.mem_singleton.mp hj.1]
    exact ⟨rfl, rfl, rfl⟩
  · intro hcfg
    simp only [addTrader, hcfg]
    simp [removeTrader_filter_nil]
  · intro hnone
    simp only [removeTrader, hnone]

/-- Witness for C9 at a concrete state: adding agent 7 twice with frequency
5min leaves exactly one coalescing, non-overlapping job for it. -/
theorem c9_scheduler_idempotent_witness :
    ((addTrader (addTrader [] 7 "5min").1 7 "5min").1.filter
        (fun j => j.id == getJobId 7)).length = 1
    ∧ removeTrader [] 7 = ([], true) := by
  refine ⟨?_, (c9_scheduler_idempotent [] 7 "5min").2.2 (by decide)⟩
  exact (((c9_scheduler_idempotent (addTrader [] 7 "5min").1 7 "5min").1
    { minutes := some 5 } (by decide))).1

/-- C8 counterexample: a successful model call made with save_log false (the
signature default behaviour when callers do not pass ids) writes zero
APICallLog rows, not exactly one. -/
theorem c8_no_row_without_save_log :
    ((callLlmApi (.response "x" {} (some 10)) "p" "gpt-5-mini"
        (some 1) (some "u") false 5).2).length ≠ 1 := by decide

/-- C8 amended: when logging is enabled (save_log true and truthy trader and
user ids), every model call outcome, success, JSON parse failure, or
transport failure, writes exactly one APICallLog row carrying the prompt
(truncated to 10000 characters on failure), the response text or the error
message, the parsed decision fields on success, token usage and latency; the
call returns the decision on success and re-raises on failure. -/
theorem c8_one_log_row_when_enabled (outcome : LlmOutcome)
    (prompt model : String) (tid : ℕ) (uid : String) (latency : ℕ)
    (htid : tid ≠ 0) (huid : uid ≠ "") :
    ((callLlmApi outcome prompt model (some tid) (some uid) true latency).2).length = 1
    ∧ (∀ content raw tokens, outcome = .response content raw tokens →
        callLlmApi outcome prompt model (some tid) (some uid) true latency
          = (.ok (parseDecision raw),
             [{ trader_id := tid, user_id := uid, model_name := model,
                prompt := prompt, prompt_length := prompt.length,
                response := content,
                decision_coin := some (parseDecision raw).coin,
                decision_action := some (parseDecision raw).decision,
                decision_uncertainty := some (parseDecision raw).uncertainty,
                decision_quantity := some (parseDecision raw).quantity,
                tokens_used := tokens, latency_ms := some latency,
                success := true }]))
    ∧ (∀ m, outcome = .jsonError m →
        callLlmApi outcome prompt model (some tid) (some uid) true latency
          = (.error ("Invalid LLM response format: " ++ m),
             [{ trader_id := tid, user_id := uid, model_name := model,
                prompt := pyTruncate prompt 10000,
                prompt_length := prompt.length, response := "",
                success := false,
                error_message := some ("Invalid LLM response format: " ++ m),
                latency_ms := some latency }]))
    ∧ (∀ m, outcome = .transportError m →
        callLlmApi outcome prompt model (some tid) (some uid) true latency
          = (.error m,
             [{ trader_id := tid, user_id := uid, model_name := model,
                prompt := pyTruncate prompt 10000,
                prompt_length := prompt.length, response := "",
                success := false, error_message := some m,
                latency_ms := some latency }])) := by
  have h1 : natTruthy (some tid) = true := by simp [natTruthy, htid]
  have h2 : strTruthy (some uid) = true := by simp [strTruthy, huid]
  refine ⟨?_, ?_, ?_, ?_⟩
  · cases outcome <;> simp [callLlmApi, h1, h2]
  · intro content raw tokens h
    subst h
    simp [callLlmApi, h1, h2]
  · intro m h
    subst h
    simp [callLlmApi, h1, h2]
  · intro m h
    subst h
    simp [callLlmApi, h1, h2]

/-- Witness for C8 at a concrete JSON parse failure: exactly one log row is
written, marked failed with the parse error message, and the call raises. -/
theorem c8_one_log_row_when_enabled_witness :
    ((callLlmApi (.jsonError "Expecting value") "p" "gpt-5-mini"
        (some 3) (some "user-1") true 42).2).length = 1
    ∧ callLlmApi (.jsonError "Expecting value") "p" "gpt-5-mini"
        (some 3) (some "user-1") true 42
      = (.error ("Invalid LLM response format: " ++ "Expecting value"),
         [{ trader_id := 3, user_id := "user-1", model_name := "gpt-5-mini",
            prompt := pyTruncate "p" 10000, prompt_length := "p".length,
            response := "", success := false,
            error_message := some ("Invalid LLM response format: " ++ "Expecting value"),
            latency_ms := some 42 }]) := by
  have h := c8_one_log_row_when_enabled (.jsonError "Expecting value") "p"
    "gpt-5-mini" 3 "user-1" 42 (by norm_num) (by decide)
  exact ⟨h.1, h.2.2.1 "Expecting value" rfl⟩

/-- C4 counterexample: for SOL (size granularity 0.01) a requested quantity
of 1/64 = 0.015625 is submitted as 0.02, i.e. rounded to NEAREST
(half-to-even), not rounded down, which would give 0.01. -/
theorem c4_quantity_rounds_to_nearest_not_down :
    ((hlExecuteTrade
        { curPrice := fun _ => 200, roundPrice := fun _ x => x,
          marketOpen := fun _ => .ok (.ok [.filled 1]),
          placeOrder := fun _ => .ok (.ok [.resting 1]) }
        "SOL" "long" (1/64) none).2.map (fun r => r.sz)) = some (2/100)
    ∧ specFloorToGranularity (1/64) (hlSizeDecimals "SOL") = 1/100
    ∧ (2 : ℚ)/100 ≠ 1/100 := by
  have hround : pyRound (1/64) (hlSizeDecimals (pyUpper "SOL")) = 2/100 := by
    rw [show hlSizeDecimals (pyUpper "SOL") = 2 from rfl]
    unfold pyRound roundHalfEven
    norm_num
  have hnorm : hlNormalizeQuantity (pyUpper "SOL") (1/64) = 2/100 := by
    simp only [hlNormalizeQuantity, hround,
      show hlMinSize (pyUpper "SOL") = 1/100 from rfl]
    norm_num
  refine ⟨?_, ?_, by norm_num⟩
  · simp only [hlExecuteTrade]
    rw [if_neg (by decide : ¬ ("long" = "hold"))]
    rw [if_neg (by norm_num : ¬ ((200 : ℚ) ≤ 0))]
    simp only [Option.map_some']
    exact congrArg some hnorm
  · unfold specFloorToGranularity
    rw [show hlSizeDecimals "SOL" = 2 from rfl]
    norm_num

/-- C4 amended: for a non-hold side, the adapter submits the quantity rounded
to the NEAREST multiple of the asset's size granularity (Python round,
half-to-even), silently raised to the asset's minimum tradable size when the
rounded value is below it; the rounded quantity is never below the minimum
and the order is never rejected for being under the exchange minimum (the
only non-submission reason is an unavailable price). -/
theorem c4_rounding_and_minimum (env : HlEnv) (symbol side : String)
    (qty : ℚ) (price? : Option ℚ) (hside : side ≠ "hold") :
    (∀ req, (hlExecuteTrade env symbol side qty price?).2 = some req →
      req.sz = hlNormalizeQuantity (pyUpper symbol) qty
      ∧ hlMinSize (pyUpper symbol) ≤ req.sz)
    ∧ (pyRound qty (hlSizeDecimals (pyUpper symbol)) < hlMinSize (pyUpper symbol) →
        hlNormalizeQuantity (pyUpper symbol) qty = hlMinSize (pyUpper symbol))
    ∧ (hlMinSize (pyUpper symbol) ≤ pyRound qty (hlSizeDecimals (pyUpper symbol)) →
        hlNormalizeQuantity (pyUpper symbol) qty
          = pyRound qty (hlSizeDecimals (pyUpper symbol)))
    ∧ ((price?.isSome ∨ 0 < env.curPrice (pyUpper symbol)) →
        ((hlExecuteTrade env symbol side qty price?).2).isSome) := by
  have hmin : hlMinSize (pyUpper symbol) ≤ hlNormalizeQuantity (pyUpper symbol) qty := by
    simp only [hlNormalizeQuantity]
    split_ifs with h
    · exact le_refl _
    · exact le_of_not_lt h
  refine ⟨?_, ?_, ?_, ?_⟩
  · intro req hreq
    unfold hlExecuteTrade at hreq
    rw [if_neg hside] at hreq
    cases price? with
    | none =>
      simp only at hreq
      by_cases hcp : env.curPrice (pyUpper symbol) ≤ 0
      · rw [if_pos hcp] at hreq
        exact absurd hreq (by simp)
      · rw [if_neg hcp] at hreq
        simp only [Option.some.injEq] at hreq
        subst hreq
        exact ⟨rfl, hmin⟩
    | some p =>
      simp only [Option.some.injEq] at hreq
      subst hreq
      exact ⟨rfl, hmin⟩
  · intro h
    simp only [hlNormalizeQuantity]
    rw [if_pos h]
  · intro h
    simp only [hlNormalizeQuantity]
    rw [if_neg (not_lt.mpr h)]
  · intro h
    unfold hlExecuteTrade
    rw [if_neg hside]
    cases price? with
    | none =>
      rcases h with h | h
      · simp at h
      · simp only
        rw [if_neg (not_le.mpr h)]
        simp
    | some p => simp

/-- Witness for C4 at concrete inputs: a BTC order for one millionth of a
coin, below the 0.00001 minimum, is submitted at exactly the minimum. -/
theorem c4_rounding_and_minimum_witness :
    hlNormalizeQuantity (pyUpper "BTC") (1/1000000) = hlMinSize (pyUpper "BTC")
    ∧ ((hlExecuteTrade
        { curPrice := fun _ => 100000, roundPrice := fun _ x => x,
          marketOpen := fun _ => .ok (.ok [.filled 1]),
          placeOrder := fun _ => .ok (.ok [.resting 1]) }
        "BTC" "long" (1/1000000) none).2).isSome := by
  have hlt : pyRound (1/1000000) (hlSizeDecimals (pyUpper "BTC"))
      < hlMinSize (pyUpper "BTC") := by
    rw [show hlSizeDecimals (pyUpper "BTC") = 5 from rfl,
        show hlMinSize (pyUpper "BTC") = 1/100000 from rfl]
    unfold pyRound roundHalfEven
    norm_num
  have h := c4_rounding_and_minimum
    { curPrice := fun _ => 100000, roundPrice := fun _ x => x,
      marketOpen := fun _ => .ok (.ok [.filled 1]),
      placeOrder := fun _ => .ok (.ok [.resting 1]) }
    "BTC" "long" (1/1000000) none (by decide)
  refine ⟨h.2.1 hlt, h.2.2.2 (Or.inr ?_)⟩
  show (0 : ℚ) < 100000
  norm_num

/-- C5: the adapter self-corrects an invalid trigger before submission.  For
a stop loss on a long, a (rounded) trigger at or above the current price is
replaced by current times 0.995; on a short, a trigger at or below current
by current times 1.005.  Take profit applies the mirror rule: long trigger at
or below current becomes current times 1.005, short trigger at or above
current becomes current times 0.995.  All trigger prices pass through the
asset price rounding on their way to the exchange. -/
theorem c5_trigger_self_correction (env : HlEnv) (symbol : String) (qty trig : ℚ) :
    (0 < env.curPrice (pyUpper symbol) →
     env.curPrice (pyUpper symbol) ≤ env.roundPrice (pyUpper symbol) trig →
      ((hlPlaceStopLoss env symbol qty trig true).2.map (fun r => r.triggerPx))
        = some (env.roundPrice (pyUpper symbol)
            (env.curPrice (pyUpper symbol) * (995/1000))))
    ∧ (0 < env.curPrice (pyUpper symbol) →
       0 < env.roundPrice (pyUpper symbol) trig →
       env.roundPrice (pyUpper symbol) trig ≤ env.curPrice (pyUpper symbol) →
      ((hlPlaceStopLoss env symbol qty trig false).2.map (fun r => r.triggerPx))
        = some (env.roundPrice (pyUpper symbol)
            (env.curPrice (pyUpper symbol) * (1005/1000))))
    ∧ (0 < env.curPrice (pyUpper symbol) →
       0 < env.roundPrice (pyUpper symbol) trig →
       env.roundPrice (pyUpper symbol) trig ≤ env.curPrice (pyUpper symbol) →
      ((hlPlaceTakeProfit env symbol qty trig true).2.map (fun r => r.triggerPx))
        = some (env.roundPrice (pyUpper symbol)
            (env.curPrice (pyUpper symbol) * (1005/1000))))
    ∧ (0 < env.curPrice (pyUpper symbol) →
       env.curPrice (pyUpper symbol) ≤ env.roundPrice (pyUpper symbol) trig →
      ((hlPlaceTakeProfit env symbol qty trig false).2.map (fun r => r.triggerPx))
        = some (env.roundPrice (pyUpper symbol)
            (env.curPrice (pyUpper symbol) * (995/1000)))) := by
  refine ⟨?_, ?_, ?_, ?_⟩
  · intro hcp ht
    unfold hlPlaceStopLoss
    rw [if_neg (not_le.mpr hcp), if_neg (not_le.mpr (lt_of_lt_of_le hcp ht)),
      if_pos ⟨rfl, ht⟩]
    rfl
  · intro hcp htpos ht
    unfold hlPlaceStopLoss
    rw [if_neg (not_le.mpr hcp), if_neg (not_le.mpr htpos)]
    have hfst : ¬ ((false : Bool) ∧ env.curPrice (pyUpper symbol)
        ≤ env.roundPrice (pyUpper symbol) trig) := fun h => by simpa using h.1
    rw [if_neg hfst, if_pos ⟨by simp, ht⟩]
    rfl
  · intro hcp htpos ht
    unfold hlPlaceTakeProfit
    rw [if_neg (not_le.mpr hcp), if_neg (not_le.mpr htpos), if_pos ⟨rfl, ht⟩]
    rfl
  · intro hcp ht
    unfold hlPlaceTakeProfit
    rw [if_neg (not_le.mpr hcp), if_neg (not_le.mpr (lt_of_lt_of_le hcp ht))]
    have hfst : ¬ ((false : Bool) ∧ env.roundPrice (pyUpper symbol) trig
        ≤ env.curPrice (pyUpper symbol)) := fun h => by simpa using h.1
    rw [if_neg hfst, if_pos ⟨by simp, ht⟩]
    rfl

/-- Witness for C5 at the specification's own numbers: current price 100 with
identity price rounding; a long stop-loss trigger requested at 105 is placed
at 99.5, and a short stop-loss trigger requested at 95 is placed at 100.5. -/
theorem c5_trigger_self_correction_witness :
    ((hlPlaceStopLoss
        { curPrice := fun _ => 100, roundPrice := fun _ x => x,
          marketOpen := fun _ => .ok (.ok [.resting 1]),
          placeOrder := fun _ => .ok (.ok [.resting 1]) }
        "BTC" 1 105 true).2.map (fun r => r.triggerPx)) = some (199/2)
    ∧ ((hlPlaceStopLoss
        { curPrice := fun _ => 100, roundPrice := fun _ x => x,
          marketOpen := fun _ => .ok (.ok [.resting 1]),
          placeOrder := fun _ => .ok (.ok [.resting 1]) }
        "BTC" 1 95 false).2.map (fun r => r.triggerPx)) = some (201/2) := by
  constructor
  · have h := (c5_trigger_self_correction
      { curPrice := fun _ => 100, roundPrice := fun _ x => x,
        marketOpen := fun _ => .ok (.ok [.resting 1]),
        placeOrder := fun _ => .ok (.ok [.resting 1]) }
      "BTC" 1 105).1 (by norm_num) (by norm_num)
    rw [h]
    norm_num
  · have h := (c5_trigger_self_correction
      { curPrice := fun _ => 100, roundPrice := fun _ x => x,
        marketOpen := fun _ => .ok (.ok [.resting 1]),
        placeOrder := fun _ => .ok (.ok [.resting 1]) }
      "BTC" 1 95).2.1 (by norm_num) (by norm_num) (by norm_num)
    rw [h]
    norm_num

/-- C2: when the decision's uncertainty strictly exceeds the effective
threshold and the action is not hold, the executor makes zero broker calls
(no exchange order is submitted) and persists exactly one Trade row with side
skipped, price 0, success true, and the decision's quantity, coin and
uncertainty preserved, returning a skip result before any exchange side
effect. -/
theorem c2_uncertainty_gate (b : BrokerBehavior) (d : TraderDecision)
    (t : TraderModel) (th : ℚ) (usl utp : Option ℚ)
    (hunc : th < d.uncertainty) (hact : d.decision ≠ "hold") :
    (executeTrade b d t true th usl utp).brokerCalls = []
    ∧ (executeTrade b d t true th usl utp).savedTrades
      = [{ trader_id := t.id, user_id := t.user_id, symbol := d.coin ++ "USDT",
           coin := d.coin, side := "skipped", quantity := d.quantity, price := 0,
           uncertainty := some d.uncertainty, success := true,
           error_message := some (skipReasonMsg d.uncertainty th) }]
    ∧ (executeTrade b d t true th usl utp).result.success = true
    ∧ (executeTrade b d t true th usl utp).result.action = "skipped"
    ∧ (executeTrade b d t true th usl utp).result.price = 0 := by
  have hg : th < d.uncertainty ∧ d.decision ∉ ["hold"] := ⟨hunc, by simpa using hact⟩
  simp only [executeTrade, if_pos hg]
  exact ⟨by trivial, by trivial, by trivial, by trivial, by trivial⟩

/-- Witness for C2 at a concrete decision (uncertainty 0.85 against threshold
0.7): no broker call is made and the executor reports a successful skip. -/
theorem c2_uncertainty_gate_witness :
    (executeTrade
      { getPositions := .ok [], trade := fun _ _ _ => .ok { success := true, price := 100 },
        cancelTriggers := fun _ => .ok {},
        stopLoss := fun _ _ _ _ => .ok { success := true },
        takeProfit := fun _ _ _ _ => .ok { success := true } }
      { coin := "BTC", decision := "long", uncertainty := 17/20, quantity := 1/100 }
      { id := 1, user_id := "u" } true (7/10) none none).brokerCalls = []
    ∧ (executeTrade
      { getPositions := .ok [], trade := fun _ _ _ => .ok { success := true, price := 100 },
        cancelTriggers := fun _ => .ok {},
        stopLoss := fun _ _ _ _ => .ok { success := true },
        takeProfit := fun _ _ _ _ => .ok { success := true } }
      { coin := "BTC", decision := "long", uncertainty := 17/20, quantity := 1/100 }
      { id := 1, user_id := "u" } true (7/10) none none).result.action = "skipped" := by
  have h := c2_uncertainty_gate
    { getPositions := .ok [], trade := fun _ _ _ => .ok { success := true, price := 100 },
      cancelTriggers := fun _ => .ok {},
      stopLoss := fun _ _ _ _ => .ok { success := true },
      takeProfit := fun _ _ _ _ => .ok { success := true } }
    { coin := "BTC", decision := "long", uncertainty := 17/20, quantity := 1/100 }
    { id := 1, user_id := "u" } (7/10) none none (by norm_num) (by decide)
  exact ⟨h.1, h.2.2.2.1⟩

/-- C1 counterexample: a close decision for a coin with no open position
returns early and persists ZERO Trade rows, falsifying the exactly-one-row
invariant on that branch. -/
theorem c1_close_without_position_saves_no_row :
    (executeTrade
      { getPositions := .ok [], trade := fun _ _ _ => .ok { success := true, price := 100 },
        cancelTriggers := fun _ => .ok {},
        stopLoss := fun _ _ _ _ => .ok { success := true },
        takeProfit := fun _ _ _ _ => .ok { success := true } }
      { coin := "BTC", decision := "close", uncertainty := 1/10, quantity := 0 }
      { id := 1, user_id := "u" } true (7/10) none none).savedTrades.length ≠ 1 := by
  norm_num [executeTrade]
  rw [if_neg (by decide : ¬ (("close" : String) = "hold"))]
  simp

/-- C1 amended: with save_trade true the executor persists exactly one Trade
row on the hold, skip, close-with-open-position, long/short (success or
failure) and outer-exception branches; the close branch that finds no open
position and the close branch that hits an exception persist zero rows. -/
theorem c1_exactly_one_trade_row (b : BrokerBehavior) (d : TraderDecision)
    (t : TraderModel) (th : ℚ) (usl utp : Option ℚ) :
    (executeTrade b d t true th usl utp).savedTrades.length
      = if closeUnsaved b d th then 0 else 1 := by
  by_cases hU : th < d.uncertainty
  · by_cases hH : d.decision = "hold"
    · simp [executeTrade, closeUnsaved, hH, hU]
    · have h2 : d.decision ∉ (["hold"] : List String) := by simpa using hH
      have h1 : (decide (th < d.uncertainty)) = true := decide_eq_true hU
      simp [executeTrade, closeUnsaved, hU, hH, h2, h1]
  · have h0 : (decide (th < d.uncertainty)) = false := decide_eq_false hU
    by_cases hH : d.decision = "hold"
    · simp [executeTrade, closeUnsaved, hH, hU]
    · by_cases hC : d.decision = "close"
      · cases hP : b.getPositions with
        | exn e =>
          simp [executeTrade, closeUnsaved, hU, hH, hC, h0, hP]
        | ok ps =>
          cases hF : ps.find? (fun pos => pyUpper pos.symbol == pyUpper d.coin) with
          | none =>
            simp [executeTrade, closeUnsaved, hU, hH, hC, h0, hP, hF]
          | some p =>
            cases hT : b.trade d.coin (if 0 < p.quantity then "short" else "long")
                |p.quantity| with
            | exn e =>
              simp [executeTrade, closeUnsaved, hU, hH, hC, h0, hP, hF, hT]
            | ok tr =>
              simp [executeTrade, closeUnsaved, hU, hH, hC, h0, hP, hF, hT]
      · have hcu : closeUnsaved b d th = false := by simp [closeUnsaved, hC]
        cases hT : b.trade d.coin d.decision d.quantity with
        | exn e => simp [executeTrade, closeUnsaved, hU, hH, hC, hcu, hT]
        | ok tr =>
          simp only [executeTrade, hcu]
          rw [if_neg (by simp [hU, hH] : ¬ (th < d.uncertainty ∧ d.decision ∉ ["hold"]))]
          rw [if_neg hH, if_neg hC]
          rw [hT]
          dsimp only
          split <;> simp

/-- C3, evaluated at the failing input: closing a SHORT position (signed size
-0.5 ETH on the exchange) submits another SHORT order of size 0.5 rather than
the opposite-direction (long) order the claim and the executor's own comments
require, because get_positions reports quantity as the absolute size and the
sign is lost. -/
theorem c3_close_short_position_submits_short :
    (executeTrade
      { getPositions := .ok (hlGetPositions
          [{ coin := "ETH", szi := -(1/2), entryPx := 3000 }] (fun _ => 3000)),
        trade := fun _ _ _ => .ok { success := true, price := 3000 },
        cancelTriggers := fun _ => .ok {},
        stopLoss := fun _ _ _ _ => .ok { success := true },
        takeProfit := fun _ _ _ _ => .ok { success := true } }
      { coin := "ETH", decision := "close", uncertainty := 1/10, quantity := 0 }
      { id := 1, user_id := "u" } true (7/10) none none).brokerCalls
    = [.getPositions, .trade "ETH" "short" (1/2)]
    ∧ "short" ≠ "long" := by
  have hg : ¬ ((7 : ℚ)/10 < 1/10 ∧ ("close" : String) ∉ ["hold"]) := by
    rintro ⟨h, -⟩
    norm_num at h
  have habs : |(-(1/2) : ℚ)| = 1/2 := by
    rw [abs_neg]
    exact abs_of_nonneg (by norm_num)
  have hpos : hlGetPositions [{ coin := "ETH", szi := -(1/2), entryPx := 3000 }]
      (fun _ => 3000)
      = [{ symbol := "ETH", quantity := 1/2, entry_price := 3000,
           current_price := 3000, unrealized_pnl := (3000 - 3000) * (1/2) }] := by
    simp only [hlGetPositions, List.filter_cons, List.filter_nil]
    rw [if_pos (by simp only [bne_iff_ne, ne_eq]; norm_num)]
    simp only [List.map_cons, List.map_nil]
    rw [if_neg (by norm_num : ¬ ((0 : ℚ) < -(1/2)))]
    rw [habs]
  refine ⟨?_, by decide⟩
  simp only [executeTrade, if_neg hg, if_true]
  rw [if_neg (by decide : ¬ (("close" : String) = "hold"))]
  rw [hpos]
  simp only [List.find?_cons, beq_self_eq_true]
  rw [if_pos (by norm_num : (0 : ℚ) < 1/2)]
  rw [abs_of_nonneg (by norm_num : (0 : ℚ) ≤ 1/2)]

/-- C7: if the primary long/short trade succeeds with a positive fill price
and the stop-loss (resp. take-profit) placement raises, the executor does not
raise: it persists exactly one Trade row whose primary success flag is true
and whose fill price is the primary price (the trade is not unwound), and
whose stop_loss (resp. take_profit) stored record has success false with the
raised message as a populated error. -/
theorem c7_trigger_failure_isolated (b : BrokerBehavior) (d : TraderDecision)
    (t : TraderModel) (th : ℚ) (usl utp : Option ℚ) (r : ExchTradeResult)
    (hgate : ¬ th < d.uncertainty) (hh : d.decision ≠ "hold")
    (hc : d.decision ≠ "close")
    (htr : b.trade d.coin d.decision d.quantity = .ok r)
    (hrs : r.success = true) (hrp : 0 < r.price) :
    (∀ s e, pyOrQ usl d.stop_loss_pct = some s → 0 < s →
      b.stopLoss d.coin d.quantity
        (if d.decision = "long" then r.price * (1 - s) else r.price * (1 + s))
        (d.decision == "long") = .exn e →
      ((executeTrade b d t true th usl utp).savedTrades.map
        (fun row => (row.success, row.price, row.stop_loss_order)))
        = [(true, r.price, some { success := false, error := some e })])
    ∧ (∀ s e, pyOrQ utp d.take_profit_pct = some s → 0 < s →
      b.takeProfit d.coin d.quantity
        (if d.decision = "long" then r.price * (1 + s) else r.price * (1 - s))
        (d.decision == "long") = .exn e →
      ((executeTrade b d t true th usl utp).savedTrades.map
        (fun row => (row.success, row.price, row.take_profit_order)))
        = [(true, r.price, some { success := false, error := some e })]) := by
  have hG : ¬ (th < d.uncertainty ∧ d.decision ∉ ["hold"]) := fun h => hgate h.1
  have hS : r.success = true ∧ 0 < r.price := ⟨hrs, hrp⟩
  constructor
  · intro s e hsl hspos hraise
    simp [executeTrade, hgate, hh, hc, htr, hrs, hrp, hsl, hspos, hraise]
  · intro s e htp htpos hraise
    simp [executeTrade, hgate, hh, hc, htr, hrs, hrp, htp, htpos, hraise]

/-- Witness for C7 at concrete inputs: a successful long fill at 3000 whose
stop-loss placement raises boom yields one Trade row with primary success
true and a stored stop-loss record success false, error boom. -/
theorem c7_trigger_failure_isolated_witness :
    ((executeTrade
      { getPositions := .ok [],
        trade := fun _ _ _ => .ok { success := true, price := 3000 },
        cancelTriggers := fun _ => .ok {},
        stopLoss := fun _ _ _ _ => .exn "boom",
        takeProfit := fun _ _ _ _ => .exn "tboom" }
      { coin := "ETH", decision := "long", uncertainty := 1/5, quantity := 1/2,
        stop_loss_pct := some (1/20) }
      { id := 1, user_id := "u" } true (7/10) none none).savedTrades.map
        (fun row => (row.success, row.price, row.stop_loss_order)))
      = [(true, 3000, some { success := false, error := some "boom" })] := by
  have h := (c7_trigger_failure_isolated
    { getPositions := .ok [],
      trade := fun _ _ _ => .ok { success := true, price := 3000 },
      cancelTriggers := fun _ => .ok {},
      stopLoss := fun _ _ _ _ => .exn "boom",
      takeProfit := fun _ _ _ _ => .exn "tboom" }
    { coin := "ETH", decision := "long", uncertainty := 1/5, quantity := 1/2,
      stop_loss_pct := some (1/20) }
    { id := 1, user_id := "u" } (7/10) none none
    { success := true, price := 3000 }
    (by norm_num) (by decide) (by decide) rfl rfl (by norm_num)).1
  exact h (1/20) "boom" (by simp [pyOrQ, qTruthy]) (by norm_num) rfl

end BoolStreet
